import Mathlib

/-!
Verification of the simple-proxy request pipeline from src/main.rs.

Rust string slices are modelled as lists of characters, header maps as
ordered lists of name-value pairs matching the iteration order of the map,
and the network as an oracle function given to the handler. The handler
result carries the forwarded request it issued, if any, so that claims
about upstream contact can be stated and checked.
-/

namespace SimpleProxy

/-- Model of a Rust string slice as a list of characters. -/
abbrev Str : Type := List Char

/-- Embedding of path.trim_start_matches applied to the slash character
(main.rs line 44): removes every leading slash character. -/
def normalize_path (path : Str) : Str := path.dropWhile (fun c => c == '/')

/-- Embedding of is_path_blocked (main.rs lines 43-56): an entry matches when
the normalized path starts with it and the remainder is empty or starts with
a slash; the loop returns true on the first match. -/
def is_path_blocked (path : Str) (blocked_folders : List Str) : Bool :=
  blocked_folders.any (fun blocked_folder =>
    blocked_folder.isPrefixOf (normalize_path path) &&
      (((normalize_path path).drop blocked_folder.length).isEmpty ||
        ['/'].isPrefixOf ((normalize_path path).drop blocked_folder.length)))

/-- Transcription of the normalization wording of the claims: strip exactly
one leading slash when present. Written only to compare with the source
function, which strips every leading slash. -/
def spec_normalize (p : Str) : Str :=
  match p with
  | '/' :: rest => rest
  | other => other

/-- Transcription of the blocking wording of the claims over spec_normalize:
some entry equals the normalized path, or the normalized path starts with the
entry followed by a slash. -/
def spec_is_blocked (p : Str) (B : List Str) : Bool :=
  B.any (fun e =>
    spec_normalize p == e || (e ++ ['/']).isPrefixOf (spec_normalize p))

/-- Characterization of boolean list prefix testing by existence of a rest. -/
theorem isPrefixOf_iff_exists {l₁ l₂ : Str} :
    l₁.isPrefixOf l₂ = true ↔ ∃ t, l₂ = l₁ ++ t := by
  induction l₁ generalizing l₂ with
  | nil =>
    simp [List.isPrefixOf]
  | cons a as ih =>
    cases l₂ with
    | nil =>
      simp [List.isPrefixOf]
    | cons b bs =>
      simp only [List.isPrefixOf, Bool.and_eq_true, beq_iff_eq, ih,
        List.cons_append, List.cons.injEq]
      constructor
      · rintro ⟨rfl, t, rfl⟩
        exact ⟨t, rfl, rfl⟩
      · rintro ⟨t, rfl, rfl⟩
        exact ⟨rfl, t, rfl⟩

/-- The normalized path never begins with a slash. -/
theorem normalize_path_no_leading_slash (p : Str) :
    ∀ t, normalize_path p ≠ '/' :: t := by
  induction p with
  | nil =>
    intro t h
    simp [normalize_path] at h
  | cons a as ih =>
    intro t h
    by_cases ha : a = '/'
    · subst ha
      rw [normalize_path, List.dropWhile_cons] at h
      simp only [beq_self_eq_true, if_true] at h
      exact ih t h
    · rw [normalize_path, List.dropWhile_cons] at h
      have hb : (a == '/') = false := beq_eq_false_iff_ne.mpr ha
      rw [hb] at h
      simp only [Bool.false_eq_true, if_false] at h
      exact ha (List.head_eq_of_cons_eq h)

/-- A single blocklist entry matches exactly when the normalized path equals
it or starts with it followed by a slash. -/
theorem entry_match_iff (n e : Str) :
    (e.isPrefixOf n &&
      ((n.drop e.length).isEmpty || ['/'].isPrefixOf (n.drop e.length))) = true ↔
    (n = e ∨ (e ++ ['/']).isPrefixOf n = true) := by
  constructor
  · intro h
    rw [Bool.and_eq_true] at h
    obtain ⟨h1, h2⟩ := h
    obtain ⟨t, rfl⟩ := isPrefixOf_iff_exists.mp h1
    rw [List.drop_left] at h2
    rw [Bool.or_eq_true] at h2
    cases h2 with
    | inl ht =>
      left
      cases t with
      | nil => simp
      | cons c cs => simp [List.isEmpty] at ht
    | inr ht =>
      right
      obtain ⟨u, rfl⟩ := isPrefixOf_iff_exists.mp ht
      exact isPrefixOf_iff_exists.mpr ⟨u, by simp⟩
  · intro h
    cases h with
    | inl h =>
      subst h
      rw [Bool.and_eq_true]
      refine ⟨isPrefixOf_iff_exists.mpr ⟨[], by simp⟩, ?_⟩
      simp
    | inr h =>
      obtain ⟨u, rfl⟩ := isPrefixOf_iff_exists.mp h
      rw [Bool.and_eq_true]
      constructor
      · exact isPrefixOf_iff_exists.mpr ⟨'/' :: u, by simp⟩
      · have : (e ++ ['/'] ++ u).drop e.length = '/' :: u := by
          have h2 := List.drop_left e ('/' :: u)
          simp only [List.append_assoc, List.cons_append, List.nil_append] at h2 ⊢
          exact h2
        rw [this]
        simp [List.isPrefixOf]

/-- Full characterization of is_path_blocked over the normalized path. -/
theorem is_path_blocked_iff (p : Str) (B : List Str) :
    is_path_blocked p B = true ↔
    ∃ e ∈ B, (normalize_path p = e ∨
      (e ++ ['/']).isPrefixOf (normalize_path p) = true) := by
  rw [is_path_blocked, List.any_eq_true]
  constructor
  · rintro ⟨e, he, hm⟩
    exact ⟨e, he, (entry_match_iff _ _).mp hm⟩
  · rintro ⟨e, he, hm⟩
    exact ⟨e, he, (entry_match_iff _ _).mpr hm⟩

/-- Embedding of the Config structure (main.rs lines 20-25). -/
structure Config where
  target : String
  port : Nat
  blocked_folders : List Str

/-- Model of the inbound URI through its two accessors used by the handler:
the path component, and the optional path-and-query string. -/
structure Uri where
  path : Str
  path_and_query : Option String

/-- Model of the inbound hyper request. -/
structure InboundRequest where
  method : String
  uri : Uri
  headers : List (String × String)
  body : String

/-- Model of the outbound request built by the forwarder. -/
structure OutboundRequest where
  method : String
  uri : String
  headers : List (String × String)
  body : String

/-- Model of a successfully received upstream response. -/
structure UpstreamResponse where
  status : Nat
  headers : List (String × String)
  body : String

/-- Model of the proxy response returned to the client. -/
structure ProxyResponse where
  status : Nat
  headers : List (String × String)
  body : String

/-- Outcome of dispatching the outbound request: a response, or a transport
error (the error value itself is opaque and never inspected). -/
inductive UpstreamResult where
  | ok : UpstreamResponse → UpstreamResult
  | err : UpstreamResult

/-- Model of std convert Infallible: a type with no values. -/
inductive Infallible : Type

/-- Embedding of HeaderMap get: the first value stored under the name. -/
def header_get (hs : List (String × String)) (name : String) : Option String :=
  (hs.find? (fun kv => kv.1 == name)).map (fun kv => kv.2)

/-- Embedding of HeaderMap insert: replaces the first entry under the name and
drops any further entries under it, appending when the name is absent. -/
def header_insert (hs : List (String × String)) (name v : String) :
    List (String × String) :=
  match hs with
  | [] => [(name, v)]
  | (k, w) :: rest =>
    if k == name then (k, v) :: rest.filter (fun kv => kv.1 != name)
    else (k, w) :: header_insert rest name v

/-- Embedding of the header copying loop (main.rs lines 87-90): each inbound
pair is appended to the outbound request in iteration order. -/
def copy_headers (hs : List (String × String)) : List (String × String) :=
  hs.foldl (fun acc kv => acc ++ [kv]) []

/-- Embedding of the forwarded request construction (main.rs lines 79-92). -/
def build_forwarded (req : InboundRequest) (config : Config) : OutboundRequest :=
  { method := req.method
  , uri := config.target ++ (req.uri.path_and_query.getD "/")
  , headers := copy_headers req.headers
  , body := req.body }

/-- Embedding of the content-type rewriting (main.rs lines 96-104). -/
def rewrite_response (response : UpstreamResponse) : UpstreamResponse :=
  match header_get response.headers "content-type" with
  | some content_type =>
    if content_type.startsWith "text/plain" then
      { response with
        headers :=
          header_insert response.headers "content-type" "text/plain; charset=utf-8" }
    else response
  | none => response

/-- Passthrough of an upstream response as the proxy response. -/
def to_proxy (r : UpstreamResponse) : ProxyResponse :=
  { status := r.status, headers := r.headers, body := r.body }

/-- Embedding of proxy_handler (main.rs lines 58-112). The upstream argument
models the network: it maps the issued outbound request to the dispatch
outcome. The second component of the result records the outbound request
issued by the single client.request call, none when no upstream contact
happens. -/
def proxy_handler (req : InboundRequest) (config : Config)
    (upstream : OutboundRequest → UpstreamResult) :
    Except Infallible (ProxyResponse × Option OutboundRequest) :=
  if is_path_blocked req.uri.path config.blocked_folders then
    Except.ok
      ({ status := 403, headers := [],
         body := "Access to this folder is forbidden" }, none)
  else if req.method ≠ "GET" ∧ req.method ≠ "POST" then
    Except.ok
      ({ status := 405, headers := [],
         body := "method not allowed (we only use get and post.)" }, none)
  else
    match upstream (build_forwarded req config) with
    | UpstreamResult.ok response =>
      Except.ok (to_proxy (rewrite_response response), some (build_forwarded req config))
    | UpstreamResult.err =>
      Except.ok
        ({ status := 502, headers := [], body := "Bad Gateway" },
          some (build_forwarded req config))

/-- Runs the handler, eliminating the uninhabited error case. -/
def handler_run (req : InboundRequest) (config : Config)
    (upstream : OutboundRequest → UpstreamResult) :
    ProxyResponse × Option OutboundRequest :=
  match proxy_handler req config upstream with
  | Except.ok r => r
  | Except.error e => nomatch e

/-- Folding append over a list from any accumulator appends the list. -/
theorem foldl_append_eq (hs : List (String × String)) :
    ∀ acc, hs.foldl (fun acc kv => acc ++ [kv]) acc = acc ++ hs := by
  induction hs with
  | nil =>
    intro acc
    simp
  | cons h t ih =>
    intro acc
    rw [List.foldl_cons, ih]
    simp

/-- The header copying loop reproduces the inbound header list exactly. -/
theorem copy_headers_eq (hs : List (String × String)) : copy_headers hs = hs := by
  rw [copy_headers, foldl_append_eq]
  simp

/-- After header_insert, looking the name up yields exactly the new value. -/
theorem header_get_insert_self (hs : List (String × String)) (name v : String) :
    header_get (header_insert hs name v) name = some v := by
  induction hs with
  | nil =>
    simp [header_insert, header_get]
  | cons kv rest ih =>
    obtain ⟨k, w⟩ := kv
    cases hkn : (k == name) with
    | true =>
      simp [header_insert, hkn, header_get]
    | false =>
      rw [header_insert]
      simp only [hkn, Bool.false_eq_true, if_false]
      rw [header_get, List.find?]
      simp only [hkn]
      exact ih

/-- header_insert leaves every entry under a different name untouched. -/
theorem header_insert_filter (hs : List (String × String)) (name v : String) :
    (header_insert hs name v).filter (fun kv => kv.1 != name) =
    hs.filter (fun kv => kv.1 != name) := by
  induction hs with
  | nil =>
    simp [header_insert]
  | cons kv rest ih =>
    obtain ⟨k, w⟩ := kv
    cases hkn : (k == name) with
    | true =>
      rw [header_insert]
      simp only [hkn, if_true]
      rw [List.filter_cons, List.filter_cons]
      simp only [bne, hkn, Bool.not_true, Bool.false_eq_true, if_false]
      rw [List.filter_filter]
      simp
    | false =>
      rw [header_insert]
      simp only [hkn, Bool.false_eq_true, if_false]
      have hb : ((k, w).1 != name) = true := by simp [bne, hkn]
      rw [List.filter_cons, List.filter_cons, hb]
      simp only [if_true]
      rw [ih]

/-- Under a non-blocked path and an allowed method, the handler forwards the
request and produces the dispatch-dependent outcome. -/
theorem handler_run_eq_forward (req : InboundRequest) (config : Config)
    (upstream : OutboundRequest → UpstreamResult)
    (h1 : is_path_blocked req.uri.path config.blocked_folders = false)
    (h2 : req.method = "GET" ∨ req.method = "POST") :
    handler_run req config upstream =
      match upstream (build_forwarded req config) with
      | UpstreamResult.ok response =>
        (to_proxy (rewrite_response response), some (build_forwarded req config))
      | UpstreamResult.err =>
        ({ status := 502, headers := [], body := "Bad Gateway" },
          some (build_forwarded req config)) := by
  have hm : ¬(req.method ≠ "GET" ∧ req.method ≠ "POST") := by
    rcases h2 with h | h <;> simp [h]
  cases hres : upstream (build_forwarded req config) with
  | ok response =>
    simp [handler_run, proxy_handler, h1, hm, hres]
  | err =>
    simp [handler_run, proxy_handler, h1, hm, hres]

/-- Claim C1, counterexample: on path //private with blocklist entry private,
the source function returns true (it strips every leading slash), while the
claimed characterization with single-slash normalization yields false. -/
theorem c1_counterexample :
    is_path_blocked ("//private".toList) ["private".toList] = true ∧
    spec_is_blocked ("//private".toList) ["private".toList] = false := by
  exact ⟨by decide, by decide⟩

/-- Claim C1, amended: is_path_blocked p B is true iff some entry e of B
satisfies normalize p = e or normalize p starts with e followed by a slash,
where normalize strips every leading slash from p (not exactly one). -/
theorem c1_blocked_characterization (p : Str) (B : List Str) :
    is_path_blocked p B = true ↔
    ∃ e ∈ B, (normalize_path p = e ∨
      (e ++ ['/']).isPrefixOf (normalize_path p) = true) :=
  is_path_blocked_iff p B

/-- Claim C2, counterexample: the blocklist consisting of the empty entry
does not block the path /foo, although it contains the empty string. -/
theorem c2_counterexample :
    ([] : Str) ∈ [([] : Str)] ∧
    is_path_blocked ("/foo".toList) [([] : Str)] = false := by
  exact ⟨by decide, by decide⟩

/-- Claim C2, amended: an empty-string entry blocks exactly the paths whose
normalized form (every leading slash stripped) is empty, such as the empty
path, /, and //; all other paths are not matched by the empty entry. -/
theorem c2_empty_entry_blocks :
    (∀ (p : Str) (B : List Str), [] ∈ B → normalize_path p = [] →
      is_path_blocked p B = true) ∧
    (∀ p : Str, is_path_blocked p [([] : Str)] = (normalize_path p).isEmpty) := by
  constructor
  · intro p B hB hp
    rw [is_path_blocked_iff]
    exact ⟨[], hB, Or.inl hp⟩
  · intro p
    cases hn : normalize_path p with
    | nil =>
      have hblk : is_path_blocked p [([] : Str)] = true :=
        (is_path_blocked_iff p [([] : Str)]).mpr ⟨[], by simp, Or.inl hn⟩
      rw [hblk]
      simp
    | cons c t =>
      have hfalse : ¬ is_path_blocked p [([] : Str)] = true := by
        intro h
        rcases (is_path_blocked_iff p [([] : Str)]).mp h with ⟨e, he, hm⟩
        simp only [List.mem_singleton] at he
        subst he
        rcases hm with hm | hm
        · rw [hm] at hn
          exact List.noConfusion hn
        · simp only [List.nil_append] at hm
          obtain ⟨u, hu⟩ := isPrefixOf_iff_exists.mp hm
          exact normalize_path_no_leading_slash p u (by simpa using hu)
      rw [Bool.not_eq_true] at hfalse
      rw [hfalse]
      simp

/-- Witness for the amended claim C2 at the all-slash path //. -/
theorem c2_witness :
    ([] : Str) ∈ [([] : Str)] ∧ normalize_path ("//".toList) = [] ∧
    is_path_blocked ("//".toList) [([] : Str)] = true :=
  ⟨by decide, by decide, c2_empty_entry_blocks.1 _ _ (by decide) (by decide)⟩

/-- Claim C10: blocklist matching is exact, case-sensitive comparison of
character sequences: /Private is not blocked by entry private, /private is,
and in general a single entry matches exactly when it equals the normalized
path or extends to it with a slash. -/
theorem c10_exact_match :
    is_path_blocked ("/Private".toList) ["private".toList] = false ∧
    is_path_blocked ("/private".toList) ["private".toList] = true ∧
    ∀ (p e : Str),
      is_path_blocked p [e] = true ↔
      (normalize_path p = e ∨ (e ++ ['/']).isPrefixOf (normalize_path p) = true) := by
  refine ⟨by decide, by decide, ?_⟩
  intro p e
  rw [is_path_blocked_iff]
  simp

/-- Claim C3: a blocked path short-circuits the handler: status 403 with the
fixed body and no upstream request, for every method and every upstream. -/
theorem c3_blocked_short_circuit (req : InboundRequest) (config : Config)
    (upstream : OutboundRequest → UpstreamResult)
    (h : is_path_blocked req.uri.path config.blocked_folders = true) :
    handler_run req config upstream =
      ({ status := 403, headers := [],
         body := "Access to this folder is forbidden" }, none) := by
  simp [handler_run, proxy_handler, h]

/-- Witness for claim C3: a PUT request to /private is blocked with 403 and
no upstream contact even though the method is otherwise disallowed. -/
theorem c3_witness :
    is_path_blocked ("/private".toList) ["private".toList] = true ∧
    handler_run
      { method := "PUT",
        uri := { path := "/private".toList, path_and_query := some "/private" },
        headers := [("host", "example")], body := "" }
      { target := "http://localhost:8000", port := 8080,
        blocked_folders := ["private".toList] }
      (fun _ => UpstreamResult.err) =
      ({ status := 403, headers := [],
         body := "Access to this folder is forbidden" }, none) :=
  ⟨by decide, c3_blocked_short_circuit _ _ _ (by decide)⟩

/-- Claim C4: with a non-blocked path and a method other than GET and POST,
the handler returns 405 with the fixed plain-text body and never contacts the
upstream; conversely any forwarded request has method GET or POST. -/
theorem c4_method_gate :
    (∀ (req : InboundRequest) (config : Config)
      (upstream : OutboundRequest → UpstreamResult),
      is_path_blocked req.uri.path config.blocked_folders = false →
      req.method ≠ "GET" → req.method ≠ "POST" →
      handler_run req config upstream =
        ({ status := 405, headers := [],
           body := "method not allowed (we only use get and post.)" }, none)) ∧
    (∀ (req : InboundRequest) (config : Config)
      (upstream : OutboundRequest → UpstreamResult) (r : OutboundRequest),
      (handler_run req config upstream).2 = some r →
      req.method = "GET" ∨ req.method = "POST") := by
  constructor
  · intro req config upstream h1 hg hp
    simp [handler_run, proxy_handler, h1, hg, hp]
  · intro req config upstream r h
    by_cases hb : is_path_blocked req.uri.path config.blocked_folders = true
    · have h403 : (handler_run req config upstream).2 = none := by
        simp [handler_run, proxy_handler, hb]
      rw [h403] at h
      exact absurd h (by simp)
    · have hb2 : is_path_blocked req.uri.path config.blocked_folders = false := by
        cases hbool : is_path_blocked req.uri.path config.blocked_folders
        · rfl
        · exact absurd hbool hb
      by_cases hm : req.method ≠ "GET" ∧ req.method ≠ "POST"
      · have h405 : (handler_run req config upstream).2 = none := by
          simp [handler_run, proxy_handler, hb2, hm.1, hm.2]
        rw [h405] at h
        exact absurd h (by simp)
      · push_neg at hm
        by_cases hg : req.method = "GET"
        · exact Or.inl hg
        · exact Or.inr (hm hg)

/-- Witness for claim C4: a DELETE to the non-blocked path /public yields 405
and no upstream contact. -/
theorem c4_witness :
    is_path_blocked ("/public".toList) ["private".toList] = false ∧
    handler_run
      { method := "DELETE",
        uri := { path := "/public".toList, path_and_query := some "/public" },
        headers := [], body := "" }
      { target := "http://localhost:8000", port := 8080,
        blocked_folders := ["private".toList] }
      (fun _ => UpstreamResult.err) =
      ({ status := 405, headers := [],
         body := "method not allowed (we only use get and post.)" }, none) :=
  ⟨by decide, c4_method_gate.1 _ _ _ (by decide) (by decide) (by decide)⟩

/-- Statement of claim C5 for given request, configuration and upstream
response: status and body pass through unchanged; a content-type value with
the literal lowercase text/plain at its start is overwritten to exactly
text/plain; charset=utf-8 while every other header entry is untouched; any
other or absent content-type leaves the headers unchanged. -/
def c5_statement (req : InboundRequest) (config : Config)
    (resp : UpstreamResponse) : Prop :=
  ((handler_run req config (fun _ => UpstreamResult.ok resp)).1.status = resp.status) ∧
  ((handler_run req config (fun _ => UpstreamResult.ok resp)).1.body = resp.body) ∧
  (∀ ct, header_get resp.headers "content-type" = some ct →
    ct.startsWith "text/plain" = true →
      header_get (handler_run req config (fun _ => UpstreamResult.ok resp)).1.headers
          "content-type" = some "text/plain; charset=utf-8" ∧
      (handler_run req config (fun _ => UpstreamResult.ok resp)).1.headers.filter
          (fun kv => kv.1 != "content-type") =
        resp.headers.filter (fun kv => kv.1 != "content-type")) ∧
  (∀ ct, header_get resp.headers "content-type" = some ct →
    ct.startsWith "text/plain" = false →
      (handler_run req config (fun _ => UpstreamResult.ok resp)).1.headers =
        resp.headers) ∧
  (header_get resp.headers "content-type" = none →
    (handler_run req config (fun _ => UpstreamResult.ok resp)).1.headers =
      resp.headers)

/-- Claim C5: for every upstream response received on a forwarded request,
the rewriter behaves as described by c5_statement. -/
theorem c5_content_type_rewrite (req : InboundRequest) (config : Config)
    (resp : UpstreamResponse)
    (h1 : is_path_blocked req.uri.path config.blocked_folders = false)
    (h2 : req.method = "GET" ∨ req.method = "POST") :
    c5_statement req config resp := by
  have hrun : handler_run req config (fun _ => UpstreamResult.ok resp) =
      (to_proxy (rewrite_response resp), some (build_forwarded req config)) := by
    rw [handler_run_eq_forward _ _ _ h1 h2]
  rw [c5_statement, hrun]
  rcases hct : header_get resp.headers "content-type" with _ | ct
  · have hrew : rewrite_response resp = resp := by
      rw [rewrite_response, hct]
    rw [hrew]
    refine ⟨rfl, rfl, ?_, ?_, ?_⟩
    · intro ct2 hct2 hsw2
      cases hct2
    · intro ct2 hct2 hsw2
      exact rfl
    · intro hnone
      exact rfl
  · by_cases hsw : ct.startsWith "text/plain" = true
    · have hrew : rewrite_response resp =
          { resp with headers :=
              header_insert resp.headers "content-type" "text/plain; charset=utf-8" } := by
        rw [rewrite_response, hct]
        simp [hsw]
      rw [hrew]
      refine ⟨rfl, rfl, ?_, ?_, ?_⟩
      · intro ct2 hct2 hsw2
        exact ⟨header_get_insert_self _ _ _, header_insert_filter _ _ _⟩
      · intro ct2 hct2 hsw2
        cases hct2
        rw [hsw] at hsw2
        exact Bool.noConfusion hsw2
      · intro hnone
        cases hnone
    · have hsw2 : ct.startsWith "text/plain" = false := by
        cases hb : ct.startsWith "text/plain"
        · rfl
        · exact absurd hb hsw
      have hrew : rewrite_response resp = resp := by
        rw [rewrite_response, hct]
        simp [hsw2]
      rw [hrew]
      refine ⟨rfl, rfl, ?_, ?_, ?_⟩
      · intro ct2 hct2 hsw3
        cases hct2
        rw [hsw2] at hsw3
        exact Bool.noConfusion hsw3
      · intro ct2 hct2 hsw3
        exact rfl
      · intro hnone
        exact rfl

/-- Witness for claim C5: a GET forwarded to an upstream answering 200 with a
latin-1 plain-text content type. -/
theorem c5_witness :
    is_path_blocked ("/notes.txt".toList) ["private".toList] = false ∧
    c5_statement
      { method := "GET",
        uri := { path := "/notes.txt".toList, path_and_query := some "/notes.txt" },
        headers := [], body := "" }
      { target := "http://localhost:8000", port := 8080,
        blocked_folders := ["private".toList] }
      { status := 200,
        headers := [("content-type", "text/plain; charset=iso-8859-1")],
        body := "hello" } :=
  ⟨by decide, c5_content_type_rewrite _ _ _ (by decide) (Or.inl rfl)⟩

/-- Claim C6: when dispatching the forwarded request fails with a transport
error, the handler answers 502 with body Bad Gateway, and the single issued
upstream request is the forwarded one (no retry exists in the model). -/
theorem c6_bad_gateway (req : InboundRequest) (config : Config)
    (h1 : is_path_blocked req.uri.path config.blocked_folders = false)
    (h2 : req.method = "GET" ∨ req.method = "POST") :
    handler_run req config (fun _ => UpstreamResult.err) =
      ({ status := 502, headers := [], body := "Bad Gateway" },
        some (build_forwarded req config)) := by
  rw [handler_run_eq_forward _ _ _ h1 h2]

/-- Witness for claim C6: a GET to /data with an unreachable upstream. -/
theorem c6_witness :
    is_path_blocked ("/data".toList) ["private".toList] = false ∧
    handler_run
      { method := "GET",
        uri := { path := "/data".toList, path_and_query := some "/data" },
        headers := [], body := "" }
      { target := "http://localhost:8000", port := 8080,
        blocked_folders := ["private".toList] }
      (fun _ => UpstreamResult.err) =
      ({ status := 502, headers := [], body := "Bad Gateway" },
        some (build_forwarded
          { method := "GET",
            uri := { path := "/data".toList, path_and_query := some "/data" },
            headers := [], body := "" }
          { target := "http://localhost:8000", port := 8080,
            blocked_folders := ["private".toList] })) :=
  ⟨by decide, c6_bad_gateway _ _ (by decide) (Or.inl rfl)⟩

/-- Claim C7: every forwarded request carries exactly the inbound header
list, verbatim and in order, with nothing dropped, added or deduplicated. -/
theorem c7_header_passthrough (req : InboundRequest) (config : Config)
    (upstream : OutboundRequest → UpstreamResult)
    (h1 : is_path_blocked req.uri.path config.blocked_folders = false)
    (h2 : req.method = "GET" ∨ req.method = "POST") :
    ((handler_run req config upstream).2).map OutboundRequest.headers =
      some req.headers := by
  rw [handler_run_eq_forward _ _ _ h1 h2]
  cases upstream (build_forwarded req config) <;>
    simp [build_forwarded, copy_headers_eq]

/-- Witness for claim C7: a GET carrying a repeated custom header and a host
header reaches the upstream with the identical header list. -/
theorem c7_witness :
    is_path_blocked ("/a".toList) ["private".toList] = false ∧
    ((handler_run
      { method := "GET",
        uri := { path := "/a".toList, path_and_query := some "/a" },
        headers := [("host", "example"), ("x-test", "abc"), ("x-test", "def")],
        body := "" }
      { target := "http://localhost:8000", port := 8080,
        blocked_folders := ["private".toList] }
      (fun _ => UpstreamResult.err)).2).map OutboundRequest.headers =
      some [("host", "example"), ("x-test", "abc"), ("x-test", "def")] :=
  ⟨by decide, c7_header_passthrough _ _ _ (by decide) (Or.inl rfl)⟩

/-- Claim C8: the outbound URI is the configured target concatenated with
the inbound path-and-query, the slash string replacing an absent one. -/
theorem c8_uri_construction (req : InboundRequest) (config : Config)
    (upstream : OutboundRequest → UpstreamResult)
    (h1 : is_path_blocked req.uri.path config.blocked_folders = false)
    (h2 : req.method = "GET" ∨ req.method = "POST") :
    ((handler_run req config upstream).2).map OutboundRequest.uri =
      some (config.target ++ req.uri.path_and_query.getD "/") := by
  rw [handler_run_eq_forward _ _ _ h1 h2]
  cases upstream (build_forwarded req config) <;> simp [build_forwarded]

/-- Witness for claim C8: a GET with a query string, forwarded with the
target prepended. -/
theorem c8_witness :
    is_path_blocked ("/a".toList) ["private".toList] = false ∧
    ((handler_run
      { method := "GET",
        uri := { path := "/a".toList, path_and_query := some "/a?q=1" },
        headers := [], body := "" }
      { target := "http://localhost:8000", port := 8080,
        blocked_folders := ["private".toList] }
      (fun _ => UpstreamResult.err)).2).map OutboundRequest.uri =
      some "http://localhost:8000/a?q=1" :=
  ⟨by decide, by
    have h := c8_uri_construction
      { method := "GET",
        uri := { path := "/a".toList, path_and_query := some "/a?q=1" },
        headers := [], body := "" }
      { target := "http://localhost:8000", port := 8080,
        blocked_folders := ["private".toList] }
      (fun _ => UpstreamResult.err) (by decide) (Or.inl rfl)
    simpa using h⟩

/-- Claim C9: the handler is total and its error type is uninhabited: every
request yields exactly one ok response, and no error value can exist. -/
theorem c9_total_single_response :
    (∀ (req : InboundRequest) (config : Config)
      (upstream : OutboundRequest → UpstreamResult),
      ∃ r, proxy_handler req config upstream = Except.ok r) ∧
    IsEmpty Infallible := by
  constructor
  · intro req config upstream
    by_cases hb : is_path_blocked req.uri.path config.blocked_folders = true
    · exact ⟨_, by rw [proxy_handler, if_pos hb]⟩
    · by_cases hm : req.method ≠ "GET" ∧ req.method ≠ "POST"
      · exact ⟨_, by rw [proxy_handler, if_neg hb, if_pos hm]⟩
      · cases hres : upstream (build_forwarded req config) with
        | ok response =>
          exact ⟨_, by rw [proxy_handler, if_neg hb, if_neg hm, hres]⟩
        | err =>
          exact ⟨_, by rw [proxy_handler, if_neg hb, if_neg hm, hres]⟩
  · exact ⟨fun e => nomatch e⟩

end SimpleProxy
